import Mathlib

/-!
Verification development for the SageDialogEnhance batch transcoder
(`src/SageDialogEnhancev6.py`).

The Python core is shallowly embedded: pure string manipulation is
translated to Lean functions over `String`/`List Char`; the external
world (the `ffprobe`/`ffmpeg` processes, the filesystem, and the
asynchronous stop flag) is passed in explicitly as data:

* a probe invocation (`subprocess.run` in `get_audio_info`) is a
  `ProbeResult`: either captured stdout (exit code 0) or a raised
  exception rendered as its message (spawn failure or non-zero exit,
  since the call uses `check=True`);
* a transcode process (`subprocess.Popen` in `process_video`) is an
  `Except String ProcBehavior`: either the exception message raised by
  the spawn, or the list of lines the merged stdout/stderr stream
  yields together with the final exit code;
* the `_stop_event` flag is a monotone `Nat → Bool` schedule sampled at
  each point the code reads it (entry check, each line-read iteration,
  and the post-`wait()` check);
* the filesystem at each job is a `JobEnv` (`outputPath.exists()`,
  whether `mkdir` raises);
* the `queue.Queue` channels are the lists of values `put` on them, in
  order.

Strings are modelled at the `List Char` level with ASCII semantics for
`str.strip`, `str.splitlines`, `str.isdigit` and `int(...)`; newlines
are `'\n'` (the code opens the pipes in text mode, which normalizes
`"\r\n"`), and path separators are `'/'`.
-/

namespace SageDialog

/-! ### Python string primitives (ASCII scope) -/

/-- Whitespace characters recognised by `str.strip()` (ASCII scope). -/
def pyIsSpace (c : Char) : Bool :=
  c = ' ' || c = '\t' || c = '\n' || c = '\r' || c = '\x0b' || c = '\x0c'

/-- `str.strip()` on the character list. -/
def pyStripL (l : List Char) : List Char :=
  ((l.dropWhile pyIsSpace).reverse.dropWhile pyIsSpace).reverse

/-- `str.strip()`. -/
def pyStrip (s : String) : String :=
  ⟨pyStripL s.data⟩

/-- Split a character list at every occurrence of `sep` (keeping empty
pieces), accumulator-style. -/
def splitCharL (sep : Char) : List Char → List Char → List (List Char)
  | acc, [] => [acc.reverse]
  | acc, c :: rest =>
    if c = sep then acc.reverse :: splitCharL sep [] rest
    else splitCharL sep (c :: acc) rest

/-- `str.splitlines()` for text-mode output: empty string gives `[]`,
otherwise split at `'\n'`.  (After a `strip()` there is no trailing
newline, so no trailing empty piece arises in the use below.) -/
def pySplitlines (s : String) : List String :=
  if s.data = [] then [] else (splitCharL '\n' [] s.data).map (fun l => ⟨l⟩)

/-- `str.isdigit()`: non-empty and every character a decimal digit. -/
def pyIsdigit (s : String) : Bool :=
  !s.data.isEmpty && s.data.all (fun c => c.isDigit)

/-- Digit-string to number, as `int(...)` evaluates a digit string. -/
def digitsToNat : Nat → List Char → Nat
  | acc, [] => acc
  | acc, c :: rest => digitsToNat (acc * 10 + (c.toNat - '0'.toNat)) rest

/-- `int(s)` for the digit strings admitted by `isdigit`. -/
def pyToNat (s : String) : Nat :=
  digitsToNat 0 s.data

/-- `p in s` (substring containment): prefix test. -/
def hasPrefixL : List Char → List Char → Bool
  | [], _ => true
  | _ :: _, [] => false
  | a :: p, b :: l => a = b && hasPrefixL p l

/-- `p in s` (substring containment): scan for a matching suffix start. -/
def hasSubL (p : List Char) : List Char → Bool
  | [] => p.isEmpty
  | c :: rest => hasPrefixL p (c :: rest) || hasSubL p rest

/-- Python `pat in s`. -/
def pyIn (pat s : String) : Bool :=
  hasSubL pat.data s.data

/-- `"sep".join(pieces)` / `String.intercalate`, written out so that its
fold structure is available to the proofs. -/
def joinWith (sep : String) : List String → String
  | [] => ""
  | a :: as => as.foldl (fun acc x => acc ++ sep ++ x) a

/-! ### Path helpers (`os.path` / `pathlib`, `'/'` separator) -/

/-- Components of a path split at `'/'`. -/
def pathParts (p : String) : List String :=
  (splitCharL '/' [] p.data).map (fun l => ⟨l⟩)

/-- `os.path.basename` / `Path(p).name`: the final path component. -/
def basename (p : String) : String :=
  (pathParts p).getLastD ""

/-- `Path(p).parent` rendered back to a string. -/
def parentOf (p : String) : String :=
  let parts := pathParts p
  if parts.length ≤ 1 then "." else joinWith "/" parts.dropLast

/-- Index of the last `'.'` in a character list, if any (CPython's
`name.rfind('.')` when it is not `-1`). -/
def lastDotIdx (l : List Char) : Option Nat :=
  ((List.range l.length).filter (fun i => l.getD i ' ' = '.')).getLast?

/-- `Path(p).stem`: the final component without its extension; the
extension is dropped only when the last dot is neither the first nor the
last character of the name. -/
def stemOf (p : String) : String :=
  let nm := basename p
  match lastDotIdx nm.data with
  | none => nm
  | some i => if 0 < i ∧ i + 1 < nm.data.length then ⟨nm.data.take i⟩ else nm

/-! ### Configuration (`VideoProcessor.__init__` arguments) -/

/-- One equalizer band record `{"f", "t", "w", "g"}`; values are strings
passed through verbatim. -/
structure Band where
  f : String
  t : String
  w : String
  g : String
deriving DecidableEq, Repr

/-- The speechnorm record `{"e", "r", "l"}`. -/
structure Speechnorm where
  e : String
  r : String
  l : String
deriving DecidableEq, Repr

/-- The configuration snapshot held by a `VideoProcessor` instance. -/
structure Config where
  supported_extensions : List String
  equalizer_bands : List Band
  speechnorm_params : Speechnorm
  output_folder : String
  output_suffix : String
deriving DecidableEq, Repr

def DEFAULT_SUPPORTED_EXTENSIONS : List String := [".mkv", ".mp4", ".mov"]

def DEFAULT_EQUALIZER_BANDS : List Band :=
  [⟨"50", "q", "2", "-12"⟩, ⟨"100", "q", "2", "-10"⟩, ⟨"150", "q", "2", "-6"⟩]

def DEFAULT_SPEECHNORM : Speechnorm := ⟨"6.25", "0.00001", "1"⟩

def DEFAULT_OUTPUT_FOLDER : String := "processed"

def DEFAULT_OUTPUT_SUFFIX : String := "_enhanced.mkv"

def PROCESSING_DONE_TOKEN : String := "__PROCESSING_DONE__"

/-! ### `VideoProcessor.build_audio_filter` -/

/-- `build_audio_filter`: one `equalizer=...` clause per band in list
order, then the `speechnorm=...` clause, joined with `","`. -/
def build_audio_filter (cfg : Config) : String :=
  let eqs := cfg.equalizer_bands.map (fun band =>
    "equalizer=f=" ++ band.f ++ ":t=" ++ band.t ++ ":w=" ++ band.w ++ ":g=" ++ band.g)
  let sn := cfg.speechnorm_params
  let sn_str := "speechnorm=e=" ++ sn.e ++ ":r=" ++ sn.r ++ ":l=" ++ sn.l
  joinWith "," (eqs ++ [sn_str])

/-- Spec-side rendering of one band clause
(`band-filter(frequency, widthType, width, gainDb)` of §4.2), for the
refinement statement of C4. -/
def specBandClause (b : Band) : String :=
  "equalizer=f=" ++ b.f ++ ":t=" ++ b.t ++ ":w=" ++ b.w ++ ":g=" ++ b.g

/-- Spec-side rendering of the normalization clause, for C4/C10. -/
def specNormClause (sn : Speechnorm) : String :=
  "speechnorm=e=" ++ sn.e ++ ":r=" ++ sn.r ++ ":l=" ++ sn.l

/-! ### `VideoProcessor.get_audio_info` -/

/-- Outcome of the `ffprobe` invocation (`subprocess.run` with
`check=True`): captured stdout on success, otherwise the raised
exception's text (spawn failure or `CalledProcessError`). -/
inductive ProbeResult where
  | ok (stdout : String)
  | err (msg : String)
deriving DecidableEq, Repr

/-- Return value of `get_audio_info` together with its debug-channel
emissions. -/
structure AudioInfoResult where
  codec : String
  bitrate : String
  debugs : List String
deriving DecidableEq, Repr

/-- `get_audio_info`: parse codec / bitrate from the probe's stdout,
defaulting each field independently; any exception is caught and
converted to the `("aac", "192k")` default. -/
def get_audio_info (probe : ProbeResult) : AudioInfoResult :=
  match probe with
  | .ok stdout =>
    let lines := pySplitlines (pyStrip stdout)
    let codec := lines.getD 0 "aac"
    let bitrate :=
      if 1 < lines.length ∧ pyIsdigit (lines.getD 1 "") = true then
        toString (pyToNat (lines.getD 1 "") / 1000) ++ "k"
      else "192k"
    ⟨codec, bitrate, ["[DEBUG] Audio info: " ++ pyStrip stdout]⟩
  | .err e => ⟨"aac", "192k", ["[DEBUG] Audio info error: " ++ e]⟩

/-- Spec-side parser of C6, reading only a (≤ 2)-element line list. -/
def specParseTwoLines (l : List String) : String × String :=
  (l.getD 0 "aac",
   if 1 < l.length ∧ pyIsdigit (l.getD 1 "") = true then
     toString (pyToNat (l.getD 1 "") / 1000) ++ "k"
   else "192k")

/-! ### `VideoProcessor.process_video` (the Transcode Worker)

The stop flag is a schedule `stop : Nat → Bool`: `stop 0` is its value
at the entry check, `stop (t + 1)` its value when the `for line in
stdout` loop examines the `t`-th raw line, and
`stop (lines.length + 1)` its value at the check following
`self._current_process.wait()` (the flag is only ever set, never
cleared, during a run, so claims quantify over monotone schedules). -/

/-- Progress-event kinds (`"file_progress"` / `"overall_progress"`). -/
inductive PKind where
  | file
  | overall
deriving DecidableEq, Repr

/-- Observable behaviour of a spawned `ffmpeg` process: the raw lines
its merged stdout/stderr stream yields, and its exit code. -/
structure ProcBehavior where
  lines : List String
  exitCode : Int
deriving DecidableEq, Repr

/-- Which branch of `process_video` produced the return value
(instrumentation mirroring the code's exit paths; the Python function
itself returns only a `bool`). -/
inductive WOutcome where
  | earlyStop
  | crashed
  | stopped
  | succeeded
  | failed
deriving DecidableEq, Repr

/-- Everything observable about one `process_video` call: its return
value, the branch taken, the three channels' emissions, and
instrumentation for claims (whether `Popen` ran, whether `wait()` ran,
whether the prober ran, and the filter chain composed). -/
structure WorkerResult where
  result : Bool
  outcome : WOutcome
  logs : List String
  debugs : List String
  progress : List (PKind × Nat)
  spawned : Bool
  waited : Bool
  probed : Bool
  filter : Option String
deriving DecidableEq, Repr

/-- `VideoProcessor._parse_progress`. -/
def parse_progress (line : String) : List (PKind × Nat) :=
  if pyIn "out_time_ms=" line = true then [(.file, 50)]
  else if pyIn "progress=end" line = true then [(.file, 100)]
  else []

/-- Channel emissions of the `for line in self._current_process.stdout`
loop: per raw line, check the stop flag (break if set), strip, skip
empty lines, emit progress for marker lines, and forward the stripped
line to the debug channel. -/
def streamLoop (stop : Nat → Bool) : Nat → List String → List String × List (PKind × Nat)
  | _, [] => ([], [])
  | t, raw :: rest =>
    if stop t then ([], [])
    else
      let line := pyStrip raw
      if line = "" then streamLoop stop (t + 1) rest
      else
        let prog :=
          if pyIn "progress=" line = true || pyIn "out_time_ms=" line = true then
            parse_progress line
          else []
        let restOut := streamLoop stop (t + 1) rest
        (line :: restOut.1, prog ++ restOut.2)

/-- `process_video input_path output_path`: early-return if the stop
flag is already set; otherwise probe, build the filter chain, spawn,
stream the output, wait for exit, and resolve the outcome (stop beats
exit code; exit 0 succeeds and forces a final 100; otherwise failed;
a spawn exception is caught and logged as a crash). -/
def process_video (cfg : Config) (stop : Nat → Bool) (probe : ProbeResult)
    (spawn : Except String ProcBehavior) (input_path output_path : String) : WorkerResult :=
  if stop 0 then
    { result := false, outcome := .earlyStop, logs := [], debugs := [], progress := [],
      spawned := false, waited := false, probed := false, filter := none }
  else
    let ai := get_audio_info probe
    let audio_filters := build_audio_filter cfg
    let cmd := ["ffmpeg", "-y", "-i", input_path, "-c:v", "copy", "-c:a", ai.codec,
                "-b:a", ai.bitrate, "-af", audio_filters, "-progress", "pipe:1", output_path]
    let logs0 := ["\n[PROCESSING] " ++ basename input_path]
    let debugs0 := ai.debugs ++ ["[DEBUG] Command: " ++ joinWith " " cmd]
    match spawn with
    | .error e =>
      { result := false, outcome := .crashed,
        logs := logs0 ++ ["[CRASH] " ++ e],
        debugs := debugs0 ++ ["[DEBUG] Process crash: " ++ e],
        progress := [], spawned := false, waited := false, probed := true,
        filter := some audio_filters }
    | .ok pb =>
      let s := streamLoop stop 1 pb.lines
      if stop (pb.lines.length + 1) then
        { result := false, outcome := .stopped,
          logs := logs0 ++ ["[STOPPED] Process was stopped by user."],
          debugs := debugs0 ++ s.1, progress := s.2,
          spawned := true, waited := true, probed := true, filter := some audio_filters }
      else if pb.exitCode = 0 then
        { result := true, outcome := .succeeded,
          logs := logs0 ++ ["[SUCCESS] " ++ basename output_path],
          debugs := debugs0 ++ s.1, progress := s.2 ++ [(.file, 100)],
          spawned := true, waited := true, probed := true, filter := some audio_filters }
      else
        { result := false, outcome := .failed,
          logs := logs0 ++ ["[FAILED] FFmpeg exited with error code: " ++ toString pb.exitCode],
          debugs := debugs0 ++ s.1, progress := s.2,
          spawned := true, waited := true, probed := true, filter := some audio_filters }

/-! ### `VideoProcessorApp.run_processing` (the Batch Orchestrator) -/

/-- Spec-level terminal/initial Job states (§3 of the design); the code
keeps no explicit per-job state, so a job's state is derived from what
the run did for it: untouched jobs are `pending`, a skipped job is
`skipped`, and an invoked worker's branch maps to
`stopped`/`succeeded`/`failed` (a crash is a failure, and the
pre-spawn early return is the worker's `Stopped`). -/
inductive JobState where
  | pending
  | skipped
  | succeeded
  | failed
  | stopped
deriving DecidableEq, Repr

/-- Map a worker call's branch to the job's terminal state. -/
def classifyWorker (r : WorkerResult) : JobState :=
  match r.outcome with
  | .earlyStop => .stopped
  | .stopped => .stopped
  | .succeeded => .succeeded
  | .failed => .failed
  | .crashed => .failed

/-- Per-job external environment: the probe's outcome, the `Popen`
outcome, whether the derived output path exists, and whether
`output_folder.mkdir(exist_ok=True)` raises (with the exception text). -/
structure JobEnv where
  probe : ProbeResult
  spawn : Except String ProcBehavior
  outputExists : Bool
  mkdirFail : Option String
deriving Repr

/-- Observables of the orchestrator loop body (before the
`except`/`finally` wrapper): channel emissions, derived job states,
which jobs invoked the worker/prober, the output paths derived for
reached jobs, the filter chains of worker calls, and the exception (if
any) escaping the loop. -/
structure LoopOut where
  logs : List String
  debugs : List String
  progress : List (PKind × Nat)
  states : List JobState
  workerCalls : List Nat
  proberCalls : List Nat
  outputs : List String
  filters : List String
  exc : Option String
deriving Repr

/-- The `for i, input_path in enumerate(self.file_list)` loop of
`run_processing`, from index `i` on.  `live i` is the pair
`(config_vars["output_folder"], config_vars["output_suffix"])` as read
from the (UI-mutable) `config_vars` when job `i` is reached; `cfg` is
the snapshot held by the `VideoProcessor`; `jobStop i` is the stop
schedule the worker samples during job `i`; `stopAt i` is the flag at
the loop's head check for job `i`. -/
def runLoop (cfg : Config) (live : Nat → String × String) (stopAt : Nat → Bool)
    (jobStop : Nat → Nat → Bool) (env : Nat → JobEnv) (total : Nat) :
    Nat → List String → LoopOut
  | _, [] => ⟨[], [], [], [], [], [], [], [], none⟩
  | i, input_path :: rest =>
    if stopAt i then
      ⟨[], [], [], (input_path :: rest).map (fun _ => .pending), [], [], [], [], none⟩
    else
      let startLog := "Starting file " ++ toString (i + 1) ++ " of " ++ toString total
        ++ ": " ++ basename input_path
      match (env i).mkdirFail with
      | some e =>
        ⟨[startLog], [], [(.file, 0)], (input_path :: rest).map (fun _ => .pending),
         [], [], [], [], some e⟩
      | none =>
        let output_name := stemOf input_path ++ (live i).2
        let output_path := (parentOf input_path ++ "/" ++ (live i).1) ++ "/" ++ output_name
        if (env i).outputExists then
          let r := runLoop cfg live stopAt jobStop env total (i + 1) rest
          ⟨startLog :: ("[SKIP] Exists: " ++ output_name) :: r.logs,
           r.debugs, (PKind.file, 0) :: (PKind.overall, i + 1) :: r.progress,
           .skipped :: r.states, r.workerCalls, r.proberCalls,
           output_path :: r.outputs, r.filters, r.exc⟩
        else
          let w := process_video cfg (jobStop i) (env i).probe (env i).spawn
            input_path output_path
          let r := runLoop cfg live stopAt jobStop env total (i + 1) rest
          ⟨startLog :: (w.logs ++ r.logs), w.debugs ++ r.debugs,
           (PKind.file, 0) :: (w.progress ++ (PKind.overall, i + 1) :: r.progress),
           classifyWorker w :: r.states, i :: r.workerCalls,
           (if w.probed then [i] else []) ++ r.proberCalls,
           output_path :: r.outputs,
           w.filter.toList ++ r.filters, r.exc⟩

/-- Observables of one whole `run_processing` call. -/
structure RunResult where
  logs : List String
  debugs : List String
  progress : List (PKind × Nat)
  states : List JobState
  workerCalls : List Nat
  proberCalls : List Nat
  outputs : List String
  filters : List String
deriving Repr

/-- `run_processing`: run the loop under `try`; an escaping exception is
logged as a critical thread error; the `finally` block always puts the
sentinel last on the log channel. -/
def run_processing (cfg : Config) (live : Nat → String × String) (stopAt : Nat → Bool)
    (jobStop : Nat → Nat → Bool) (env : Nat → JobEnv) (files : List String) : RunResult :=
  let r := runLoop cfg live stopAt jobStop env files.length 0 files
  let withCrit :=
    match r.exc with
    | some e => r.logs ++ ["\n[CRITICAL THREAD ERROR] " ++ e]
    | none => r.logs
  ⟨withCrit ++ [PROCESSING_DONE_TOKEN], r.debugs, r.progress, r.states,
   r.workerCalls, r.proberCalls, r.outputs, r.filters⟩

/-- Every ordinary log message of the program starts with a character
other than `'_'`, so it can never collide with the sentinel
`"__PROCESSING_DONE__"`; this predicate is the invariant carried through
the log-channel proofs. -/
def goodMsg (m : String) : Prop :=
  m.data.head? ≠ some '_'

/-! ## Theorems -/

theorem data_append (a b : String) : (a ++ b).data = a.data ++ b.data := rfl

theorem head?_data_append {a : String} (b : String) {c : Char}
    (h : a.data.head? = some c) : (a ++ b).data.head? = some c := by
  rw [data_append, List.head?_append, h]
  rfl

theorem getLast?_data_append (a : String) {b : String} (h : b.data ≠ []) :
    (a ++ b).data.getLast? = b.data.getLast? := by
  rw [data_append, List.getLast?_append, Option.or_of_isSome (List.getLast?_isSome.mpr h)]

theorem goodMsg_of_head {m : String} {c : Char} (h : m.data.head? = some c)
    (hc : c ≠ '_') : goodMsg m := by
  unfold goodMsg
  rw [h]
  intro he
  exact hc (Option.some.inj he)

theorem foldl_join_head (sep : String) (as : List String) :
    ∀ (acc : String) (c : Char), acc.data.head? = some c →
      (as.foldl (fun a x => a ++ sep ++ x) acc).data.head? = some c := by
  induction as with
  | nil => exact fun acc c h => h
  | cons x xs ih =>
    intro acc c h
    exact ih (acc ++ sep ++ x) c (head?_data_append x (head?_data_append sep h))

theorem joinWith_head {c : Char} (sep a : String) (as : List String)
    (h : a.data.head? = some c) :
    (joinWith sep (a :: as)).data.head? = some c :=
  foldl_join_head sep as a c h

theorem joinWith_last (sep : String) (as : List String) {x : String} (h : x.data ≠ []) :
    (joinWith sep (as ++ [x])).data.getLast? = x.data.getLast? := by
  cases as with
  | nil => rfl
  | cons a as' =>
    show ((as' ++ [x]).foldl (fun acc y => acc ++ sep ++ y) a).data.getLast? = _
    rw [List.foldl_append]
    exact getLast?_data_append _ h

theorem build_eq_clauses (cfg : Config) :
    build_audio_filter cfg =
      joinWith ","
        (cfg.equalizer_bands.map specBandClause ++ [specNormClause cfg.speechnorm_params]) :=
  rfl

theorem specBandClause_head (b : Band) :
    (specBandClause b).data.head? = some 'e' :=
  head?_data_append _ (head?_data_append _ (head?_data_append _ (head?_data_append _
    (head?_data_append _ (head?_data_append _ (head?_data_append _ rfl))))))

theorem specNormClause_head (sn : Speechnorm) :
    (specNormClause sn).data.head? = some 's' :=
  head?_data_append _ (head?_data_append _ (head?_data_append _ (head?_data_append _
    (head?_data_append _ rfl))))

theorem specNormClause_ne_nil (sn : Speechnorm) :
    (specNormClause sn).data ≠ [] := by
  intro h0
  have hh := specNormClause_head sn
  rw [h0] at hh
  exact absurd hh (by decide)

theorem specNormClause_last (sn : Speechnorm) :
    (specNormClause sn).data.getLast? = some ',' → sn.l.data.getLast? = some ',' := by
  intro h
  have he : specNormClause sn =
      ("speechnorm=e=" ++ sn.e ++ ":r=" ++ sn.r ++ ":l=") ++ sn.l := rfl
  cases hld : sn.l.data with
  | nil =>
    rw [he, data_append, hld, List.append_nil] at h
    have he2 : ("speechnorm=e=" ++ sn.e ++ ":r=" ++ sn.r ++ ":l=" : String).data =
        (("speechnorm=e=" ++ sn.e ++ ":r=" ++ sn.r) ++ (":l=" : String)).data := rfl
    rw [he2, getLast?_data_append _ (show (":l=" : String).data ≠ [] by decide)] at h
    exact absurd h (by decide)
  | cons c cs =>
    rw [he, getLast?_data_append _ (by rw [hld]; exact List.cons_ne_nil c cs), hld] at h
    exact h

/-- C4: for every configuration, `build_audio_filter` is a pure function
of the configuration that renders one equalizer clause per
`equalizer_bands` entry in exactly the configured list order, appends
exactly one speechnorm clause after all band clauses, and joins all
clauses with the fixed separator `","`. -/
theorem c4_filter_chain_structure (cfg : Config) :
    build_audio_filter cfg =
      joinWith ","
        (cfg.equalizer_bands.map specBandClause ++ [specNormClause cfg.speechnorm_params]) ∧
    (cfg.equalizer_bands.map specBandClause ++ [specNormClause cfg.speechnorm_params]).length
      = cfg.equalizer_bands.length + 1 ∧
    (cfg.equalizer_bands.map specBandClause
        ++ [specNormClause cfg.speechnorm_params]).getLast?
      = some (specNormClause cfg.speechnorm_params) := by
  refine ⟨build_eq_clauses cfg, ?_, List.getLast?_concat _⟩
  simp

/-- C10 counterexample: with an empty band list and the (unvalidated,
passed-through verbatim) speechnorm link-channels string `"1,"`, the
built filter string ends with the separator character `','`, so the
claim's "the result never has a leading or trailing `','`" fails. -/
theorem c10_counterexample :
    (build_audio_filter
        ⟨DEFAULT_SUPPORTED_EXTENSIONS, [], ⟨"6.25", "0.00001", "1,"⟩,
         DEFAULT_OUTPUT_FOLDER, DEFAULT_OUTPUT_SUFFIX⟩).data.getLast? = some ',' := by
  decide

/-- C10 amended: for every configuration, `build_audio_filter` is total;
with an empty `equalizer_bands` list it returns exactly the single
speechnorm clause with no separator; the result never begins with `','`;
and it ends with `','` only when the configured speechnorm
link-channels string itself ends with `','`. -/
theorem c10_empty_bands (cfg : Config)
    (hl : cfg.speechnorm_params.l.data.getLast? ≠ some ',') :
    (cfg.equalizer_bands = [] →
      build_audio_filter cfg = specNormClause cfg.speechnorm_params) ∧
    (build_audio_filter cfg).data.head? ≠ some ',' ∧
    (build_audio_filter cfg).data.getLast? ≠ some ',' := by
  refine ⟨?_, ?_, ?_⟩
  · intro h
    rw [build_eq_clauses, h]
    rfl
  · rw [build_eq_clauses]
    cases hb : cfg.equalizer_bands with
    | nil =>
      have h1 : (joinWith "," (List.map specBandClause []
          ++ [specNormClause cfg.speechnorm_params])).data.head? = some 's' :=
        specNormClause_head cfg.speechnorm_params
      rw [h1]
      decide
    | cons b bs =>
      rw [List.map_cons, List.cons_append,
        joinWith_head "," _ _ (specBandClause_head b)]
      decide
  · rw [build_eq_clauses,
      joinWith_last "," _ (specNormClause_ne_nil cfg.speechnorm_params)]
    intro h
    exact hl (specNormClause_last cfg.speechnorm_params h)

/-- C10 witness: at the default speechnorm parameters and an empty band
list the amended statement evaluates as expected. -/
theorem c10_empty_bands_witness :
    build_audio_filter
        ⟨DEFAULT_SUPPORTED_EXTENSIONS, [], DEFAULT_SPEECHNORM,
         DEFAULT_OUTPUT_FOLDER, DEFAULT_OUTPUT_SUFFIX⟩
      = specNormClause DEFAULT_SPEECHNORM ∧
    (build_audio_filter
        ⟨DEFAULT_SUPPORTED_EXTENSIONS, [], DEFAULT_SPEECHNORM,
         DEFAULT_OUTPUT_FOLDER, DEFAULT_OUTPUT_SUFFIX⟩).data.head? ≠ some ',' ∧
    (build_audio_filter
        ⟨DEFAULT_SUPPORTED_EXTENSIONS, [], DEFAULT_SPEECHNORM,
         DEFAULT_OUTPUT_FOLDER, DEFAULT_OUTPUT_SUFFIX⟩).data.getLast? ≠ some ',' := by
  have h := c10_empty_bands
    ⟨DEFAULT_SUPPORTED_EXTENSIONS, [], DEFAULT_SPEECHNORM,
     DEFAULT_OUTPUT_FOLDER, DEFAULT_OUTPUT_SUFFIX⟩ (by decide)
  exact ⟨h.1 rfl, h.2.1, h.2.2⟩

/-- C5 counterexample: a probe that succeeds but whose second output
line is malformed (`"abc"` is not a digit string) does not yield the
full default pair: the codec is taken from the first line (`"mp3"`),
only the bitrate falls back to `"192k"`. -/
theorem c5_counterexample :
    (get_audio_info (.ok "mp3\nabc")).codec = "mp3" ∧
    (get_audio_info (.ok "mp3\nabc")).bitrate = "192k" ∧
    pyIsdigit "abc" = false ∧
    ("mp3" : String) ≠ "aac" := by
  decide

/-- C5 amended: `get_audio_info` is total (no exception escapes);
whenever the probe throws it returns exactly `("aac", "192k")`; when the
probe succeeds the fields default independently: the bitrate is
`"192k"` whenever the second line is absent or not a digit string, and
the codec is `"aac"` when the output has no lines at all. -/
theorem c5_probe_defaults (e out : String)
    (hbad : pyIsdigit ((pySplitlines (pyStrip out)).getD 1 "") = false) :
    (get_audio_info (.err e)).codec = "aac" ∧
    (get_audio_info (.err e)).bitrate = "192k" ∧
    (get_audio_info (.ok out)).bitrate = "192k" ∧
    (pySplitlines (pyStrip out) = [] → (get_audio_info (.ok out)).codec = "aac") := by
  refine ⟨rfl, rfl, ?_, ?_⟩
  · have hbad' : pyIsdigit ((pySplitlines (pyStrip out))[1]?.getD "") = false := by
      rw [← List.getD_eq_getElem?_getD]
      exact hbad
    simp [get_audio_info, hbad']
  · intro h
    simp [get_audio_info, h]

/-- C5 witness: the amended statement at a spawn failure and at a
malformed successful probe. -/
theorem c5_probe_defaults_witness :
    (get_audio_info (.err "ffprobe not found")).codec = "aac" ∧
    (get_audio_info (.err "ffprobe not found")).bitrate = "192k" ∧
    (get_audio_info (.ok "mp3\nabc")).bitrate = "192k" := by
  have h := c5_probe_defaults "ffprobe not found" "mp3\nabc" (by decide)
  exact ⟨h.1, h.2.1, h.2.2.1⟩

theorem specParse_take2 (l : List String) :
    (l.getD 0 "aac",
     if 1 < l.length ∧ pyIsdigit (l.getD 1 "") = true then
       toString (pyToNat (l.getD 1 "") / 1000) ++ "k"
     else "192k")
      = specParseTwoLines (l.take 2) := by
  match l with
  | [] => rfl
  | [a] => rfl
  | a :: b :: rest =>
    show (a, if 1 < (a :: b :: rest).length ∧ pyIsdigit b = true then
        toString (pyToNat b / 1000) ++ "k" else "192k")
      = (a, if 1 < ([a, b] : List String).length ∧ pyIsdigit b = true then
        toString (pyToNat b / 1000) ++ "k" else "192k")
    by_cases hp : pyIsdigit b = true
    · rw [if_pos ⟨by simp, hp⟩, if_pos ⟨by simp, hp⟩]
    · rw [if_neg (fun hc => hp hc.2), if_neg (fun hc => hp hc.2)]

/-- C6: on a successful probe, the codec is the first output line
(default `"aac"` when there is none); the bitrate is the second line
divided by 1000 and suffixed `"k"` exactly when the second line is
present and a digit string, and `"192k"` otherwise; and the whole parse
reads at most the first two lines. -/
theorem c6_two_line_parse (out : String) :
    (get_audio_info (.ok out)).codec = (pySplitlines (pyStrip out)).getD 0 "aac" ∧
    ((1 < (pySplitlines (pyStrip out)).length ∧
        pyIsdigit ((pySplitlines (pyStrip out)).getD 1 "") = true) →
      (get_audio_info (.ok out)).bitrate =
        toString (pyToNat ((pySplitlines (pyStrip out)).getD 1 "") / 1000) ++ "k") ∧
    (¬ (1 < (pySplitlines (pyStrip out)).length ∧
        pyIsdigit ((pySplitlines (pyStrip out)).getD 1 "") = true) →
      (get_audio_info (.ok out)).bitrate = "192k") ∧
    ((get_audio_info (.ok out)).codec, (get_audio_info (.ok out)).bitrate)
      = specParseTwoLines ((pySplitlines (pyStrip out)).take 2) := by
  refine ⟨rfl, ?_, ?_, specParse_take2 (pySplitlines (pyStrip out))⟩
  · intro h
    simp only [get_audio_info]
    rw [if_pos h]
  · intro h
    simp only [get_audio_info]
    rw [if_neg h]

/-- C6 witness: a well-formed probe output is parsed into its codec and
kbps bitrate; a malformed second line falls back to `"192k"`. -/
theorem c6_two_line_parse_witness :
    (get_audio_info (.ok "aac\n256000\n")).codec = "aac" ∧
    (get_audio_info (.ok "aac\n256000\n")).bitrate = "256k" ∧
    (get_audio_info (.ok "mp3\nabc")).bitrate = "192k" := by
  have h1 := c6_two_line_parse "aac\n256000\n"
  have h2 := c6_two_line_parse "mp3\nabc"
  exact ⟨h1.1.trans (by decide), (h1.2.1 (by decide)).trans (by decide),
    h2.2.2.1 (by decide)⟩

/-- C1: if the stop flag is clear at entry (so streaming starts) and
cancellation is requested at some point of the streaming loop — the
flag being monotone, as it is only ever set — then `process_video`
still waits for the process to exit, returns `False` with exactly the
`[PROCESSING]`/`[STOPPED]` log pair (the user-stop outcome), and never
takes the success or failure branch, whatever the exit code was. -/
theorem c1_cancel_midstream (cfg : Config) (stop : Nat → Bool) (probe : ProbeResult)
    (pb : ProcBehavior) (input_path output_path : String)
    (hmono : ∀ i j, i ≤ j → stop i = true → stop j = true)
    (h0 : stop 0 = false) (t : Nat) (ht : t ≤ pb.lines.length) (hstop : stop t = true) :
    (process_video cfg stop probe (.ok pb) input_path output_path).result = false ∧
    (process_video cfg stop probe (.ok pb) input_path output_path).outcome
      = WOutcome.stopped ∧
    (process_video cfg stop probe (.ok pb) input_path output_path).waited = true ∧
    (process_video cfg stop probe (.ok pb) input_path output_path).logs
      = ["\n[PROCESSING] " ++ basename input_path,
         "[STOPPED] Process was stopped by user."] := by
  have hfin : stop (pb.lines.length + 1) = true :=
    hmono t (pb.lines.length + 1) (Nat.le_succ_of_le ht) hstop
  simp [process_video, h0, hfin]

/-- C1 witness: a stop request arriving at the first streamed line of a
process that later exits with code 7 still yields the stopped outcome,
not the failure one. -/
theorem c1_cancel_midstream_witness :
    (process_video
        ⟨DEFAULT_SUPPORTED_EXTENSIONS, DEFAULT_EQUALIZER_BANDS, DEFAULT_SPEECHNORM,
         DEFAULT_OUTPUT_FOLDER, DEFAULT_OUTPUT_SUFFIX⟩
        (fun n => decide (0 < n)) (.ok "aac\n256000") (.ok ⟨["frame=1"], 7⟩)
        "d/a.mkv" "d/processed/a_enhanced.mkv").result = false ∧
    (process_video
        ⟨DEFAULT_SUPPORTED_EXTENSIONS, DEFAULT_EQUALIZER_BANDS, DEFAULT_SPEECHNORM,
         DEFAULT_OUTPUT_FOLDER, DEFAULT_OUTPUT_SUFFIX⟩
        (fun n => decide (0 < n)) (.ok "aac\n256000") (.ok ⟨["frame=1"], 7⟩)
        "d/a.mkv" "d/processed/a_enhanced.mkv").outcome = WOutcome.stopped ∧
    (process_video
        ⟨DEFAULT_SUPPORTED_EXTENSIONS, DEFAULT_EQUALIZER_BANDS, DEFAULT_SPEECHNORM,
         DEFAULT_OUTPUT_FOLDER, DEFAULT_OUTPUT_SUFFIX⟩
        (fun n => decide (0 < n)) (.ok "aac\n256000") (.ok ⟨["frame=1"], 7⟩)
        "d/a.mkv" "d/processed/a_enhanced.mkv").waited = true ∧
    (process_video
        ⟨DEFAULT_SUPPORTED_EXTENSIONS, DEFAULT_EQUALIZER_BANDS, DEFAULT_SPEECHNORM,
         DEFAULT_OUTPUT_FOLDER, DEFAULT_OUTPUT_SUFFIX⟩
        (fun n => decide (0 < n)) (.ok "aac\n256000") (.ok ⟨["frame=1"], 7⟩)
        "d/a.mkv" "d/processed/a_enhanced.mkv").logs
      = ["\n[PROCESSING] " ++ basename "d/a.mkv",
         "[STOPPED] Process was stopped by user."] :=
  c1_cancel_midstream _ _ _ _ _ _
    (fun i j hij hi => by
      simp only [decide_eq_true_eq] at hi ⊢
      omega)
    (by decide) 1 (by decide) (by decide)

theorem gm_starting (a b c : String) :
    goodMsg ("Starting file " ++ a ++ " of " ++ b ++ ": " ++ c) :=
  goodMsg_of_head
    (head?_data_append _ (head?_data_append _ (head?_data_append _
      (head?_data_append _ (head?_data_append _ rfl))))) (by decide)

theorem gm_skip (s : String) : goodMsg ("[SKIP] Exists: " ++ s) :=
  goodMsg_of_head (head?_data_append _ rfl) (by decide)

theorem gm_processing (s : String) : goodMsg ("\n[PROCESSING] " ++ s) :=
  goodMsg_of_head (head?_data_append _ rfl) (by decide)

theorem gm_crash (s : String) : goodMsg ("[CRASH] " ++ s) :=
  goodMsg_of_head (head?_data_append _ rfl) (by decide)

theorem gm_stopped : goodMsg "[STOPPED] Process was stopped by user." :=
  goodMsg_of_head rfl (by decide)

theorem gm_success (s : String) : goodMsg ("[SUCCESS] " ++ s) :=
  goodMsg_of_head (head?_data_append _ rfl) (by decide)

theorem gm_failed (s : String) :
    goodMsg ("[FAILED] FFmpeg exited with error code: " ++ s) :=
  goodMsg_of_head (head?_data_append _ rfl) (by decide)

theorem gm_critical (s : String) : goodMsg ("\n[CRITICAL THREAD ERROR] " ++ s) :=
  goodMsg_of_head (head?_data_append _ rfl) (by decide)

theorem token_not_good : ¬ goodMsg PROCESSING_DONE_TOKEN := by
  unfold goodMsg
  intro h
  exact h rfl

theorem worker_logs_good (cfg : Config) (stop : Nat → Bool) (probe : ProbeResult)
    (spawn : Except String ProcBehavior) (inp out : String) :
    ∀ m ∈ (process_video cfg stop probe spawn inp out).logs, goodMsg m := by
  intro m hm
  unfold process_video at hm
  split at hm
  · simp at hm
  · split at hm
    · simp at hm
      rcases hm with rfl | rfl
      · exact gm_processing _
      · exact gm_crash _
    · split at hm
      · simp at hm
        rcases hm with rfl | rfl
        · exact gm_processing _
        · exact gm_stopped
      · split at hm
        · simp at hm
          rcases hm with rfl | rfl
          · exact gm_processing _
          · exact gm_success _
        · simp at hm
          rcases hm with rfl | rfl
          · exact gm_processing _
          · exact gm_failed _

theorem loop_logs_good (cfg : Config) (live : Nat → String × String) (stopAt : Nat → Bool)
    (jobStop : Nat → Nat → Bool) (env : Nat → JobEnv) (total : Nat) :
    ∀ (files : List String) (i : Nat),
      ∀ m ∈ (runLoop cfg live stopAt jobStop env total i files).logs, goodMsg m := by
  intro files
  induction files with
  | nil =>
    intro i m hm
    simp [runLoop] at hm
  | cons f fs ih =>
    intro i m hm
    simp only [runLoop] at hm
    split at hm
    · simp at hm
    · split at hm
      · simp at hm
        subst hm
        exact gm_starting _ _ _
      · split at hm
        · simp at hm
          rcases hm with rfl | rfl | hmem
          · exact gm_starting _ _ _
          · exact gm_skip _
          · exact ih (i + 1) m hmem
        · simp at hm
          rcases hm with rfl | hw | hmem
          · exact gm_starting _ _ _
          · exact worker_logs_good _ _ _ _ _ _ m hw
          · exact ih (i + 1) m hmem

/-- C2: every run of `run_processing` — normal completion, stop-request
halt, or an exception escaping the loop (caught, reported as a critical
error) — emits the sentinel `PROCESSING_DONE_TOKEN` as its last log
emission and emits it exactly once; the modelled function is total, so
no exception propagates out. -/
theorem c2_sentinel_always (cfg : Config) (live : Nat → String × String)
    (stopAt : Nat → Bool) (jobStop : Nat → Nat → Bool) (env : Nat → JobEnv)
    (files : List String) :
    (run_processing cfg live stopAt jobStop env files).logs.getLast?
      = some PROCESSING_DONE_TOKEN ∧
    (run_processing cfg live stopAt jobStop env files).logs.count PROCESSING_DONE_TOKEN
      = 1 := by
  have hnotin : PROCESSING_DONE_TOKEN ∉
      (runLoop cfg live stopAt jobStop env files.length 0 files).logs := fun hmem =>
    token_not_good (loop_logs_good cfg live stopAt jobStop env files.length files 0 _ hmem)
  have hlogs : (run_processing cfg live stopAt jobStop env files).logs =
      (match (runLoop cfg live stopAt jobStop env files.length 0 files).exc with
       | some e =>
         (runLoop cfg live stopAt jobStop env files.length 0 files).logs
           ++ ["\n[CRITICAL THREAD ERROR] " ++ e]
       | none => (runLoop cfg live stopAt jobStop env files.length 0 files).logs)
        ++ [PROCESSING_DONE_TOKEN] := rfl
  rw [hlogs]
  cases hexc : (runLoop cfg live stopAt jobStop env files.length 0 files).exc with
  | none =>
    refine ⟨List.getLast?_concat _, ?_⟩
    simp [List.count_append, List.count_eq_zero.mpr hnotin]
  | some e =>
    refine ⟨List.getLast?_concat _, ?_⟩
    have hcrit : ¬ ("\n[CRITICAL THREAD ERROR] " ++ e) = PROCESSING_DONE_TOKEN :=
      fun hh => token_not_good (hh ▸ gm_critical e)
    simp [List.count_append, List.count_eq_zero.mpr hnotin, List.count_cons, hcrit]

/-- C3: a job reached with no stop request, a creatable (here: already
consistent) output directory, and an existing output path is skipped:
the skip log event is emitted, the worker and the prober are not
invoked for that job (its state is `Skipped`), the overall-progress
event for its index is still emitted, and the loop continues with the
next job. -/
theorem c3_skip_existing (cfg : Config) (live : Nat → String × String)
    (stopAt : Nat → Bool) (jobStop : Nat → Nat → Bool) (env : Nat → JobEnv)
    (total i : Nat) (f : String) (rest : List String)
    (hstop : stopAt i = false) (hmk : (env i).mkdirFail = none)
    (hex : (env i).outputExists = true) :
    (runLoop cfg live stopAt jobStop env total i (f :: rest)).states
      = JobState.skipped :: (runLoop cfg live stopAt jobStop env total (i + 1) rest).states ∧
    (runLoop cfg live stopAt jobStop env total i (f :: rest)).workerCalls
      = (runLoop cfg live stopAt jobStop env total (i + 1) rest).workerCalls ∧
    (runLoop cfg live stopAt jobStop env total i (f :: rest)).proberCalls
      = (runLoop cfg live stopAt jobStop env total (i + 1) rest).proberCalls ∧
    (runLoop cfg live stopAt jobStop env total i (f :: rest)).logs
      = ("Starting file " ++ toString (i + 1) ++ " of " ++ toString total
          ++ ": " ++ basename f)
        :: ("[SKIP] Exists: " ++ (stemOf f ++ (live i).2))
        :: (runLoop cfg live stopAt jobStop env total (i + 1) rest).logs ∧
    (runLoop cfg live stopAt jobStop env total i (f :: rest)).progress
      = (PKind.file, 0) :: (PKind.overall, i + 1)
        :: (runLoop cfg live stopAt jobStop env total (i + 1) rest).progress := by
  simp [runLoop, hstop, hmk, hex]

/-- C3 witness: a one-job batch whose output already exists is skipped
with the expected emissions and no worker/prober call. -/
theorem c3_skip_existing_witness :
    (runLoop
        ⟨DEFAULT_SUPPORTED_EXTENSIONS, DEFAULT_EQUALIZER_BANDS, DEFAULT_SPEECHNORM,
         DEFAULT_OUTPUT_FOLDER, DEFAULT_OUTPUT_SUFFIX⟩
        (fun _ => ("processed", "_enhanced.mkv")) (fun _ => false) (fun _ _ => false)
        (fun _ => ⟨.ok "aac\n256000", .ok ⟨[], 0⟩, true, none⟩)
        1 0 ["d/a.mkv"]).states = [JobState.skipped] ∧
    (runLoop
        ⟨DEFAULT_SUPPORTED_EXTENSIONS, DEFAULT_EQUALIZER_BANDS, DEFAULT_SPEECHNORM,
         DEFAULT_OUTPUT_FOLDER, DEFAULT_OUTPUT_SUFFIX⟩
        (fun _ => ("processed", "_enhanced.mkv")) (fun _ => false) (fun _ _ => false)
        (fun _ => ⟨.ok "aac\n256000", .ok ⟨[], 0⟩, true, none⟩)
        1 0 ["d/a.mkv"]).workerCalls = [] ∧
    (runLoop
        ⟨DEFAULT_SUPPORTED_EXTENSIONS, DEFAULT_EQUALIZER_BANDS, DEFAULT_SPEECHNORM,
         DEFAULT_OUTPUT_FOLDER, DEFAULT_OUTPUT_SUFFIX⟩
        (fun _ => ("processed", "_enhanced.mkv")) (fun _ => false) (fun _ _ => false)
        (fun _ => ⟨.ok "aac\n256000", .ok ⟨[], 0⟩, true, none⟩)
        1 0 ["d/a.mkv"]).proberCalls = [] ∧
    (runLoop
        ⟨DEFAULT_SUPPORTED_EXTENSIONS, DEFAULT_EQUALIZER_BANDS, DEFAULT_SPEECHNORM,
         DEFAULT_OUTPUT_FOLDER, DEFAULT_OUTPUT_SUFFIX⟩
        (fun _ => ("processed", "_enhanced.mkv")) (fun _ => false) (fun _ _ => false)
        (fun _ => ⟨.ok "aac\n256000", .ok ⟨[], 0⟩, true, none⟩)
        1 0 ["d/a.mkv"]).progress
      = [(PKind.file, 0), (PKind.overall, 1)] := by
  have h := c3_skip_existing
    ⟨DEFAULT_SUPPORTED_EXTENSIONS, DEFAULT_EQUALIZER_BANDS, DEFAULT_SPEECHNORM,
     DEFAULT_OUTPUT_FOLDER, DEFAULT_OUTPUT_SUFFIX⟩
    (fun _ => ("processed", "_enhanced.mkv")) (fun _ => false) (fun _ _ => false)
    (fun _ => ⟨.ok "aac\n256000", .ok ⟨[], 0⟩, true, none⟩)
    1 0 "d/a.mkv" [] rfl rfl rfl
  exact ⟨h.1, h.2.1, h.2.2.1, h.2.2.2.2⟩

/-- C7 counterexample: when cancellation is requested before any job
starts, the first job does not end `Stopped`: the loop breaks before
touching it, so it stays `Pending` like all the others — no per-job log
is emitted and the worker is never called. -/
theorem c7_counterexample :
    (run_processing
        ⟨DEFAULT_SUPPORTED_EXTENSIONS, DEFAULT_EQUALIZER_BANDS, DEFAULT_SPEECHNORM,
         DEFAULT_OUTPUT_FOLDER, DEFAULT_OUTPUT_SUFFIX⟩
        (fun _ => ("processed", "_enhanced.mkv")) (fun _ => true) (fun _ _ => false)
        (fun _ => ⟨.ok "aac\n256000", .ok ⟨[], 0⟩, false, none⟩)
        ["d/a.mkv", "d/b.mkv"]).states = [JobState.pending, JobState.pending] ∧
    (run_processing
        ⟨DEFAULT_SUPPORTED_EXTENSIONS, DEFAULT_EQUALIZER_BANDS, DEFAULT_SPEECHNORM,
         DEFAULT_OUTPUT_FOLDER, DEFAULT_OUTPUT_SUFFIX⟩
        (fun _ => ("processed", "_enhanced.mkv")) (fun _ => true) (fun _ _ => false)
        (fun _ => ⟨.ok "aac\n256000", .ok ⟨[], 0⟩, false, none⟩)
        ["d/a.mkv", "d/b.mkv"]).workerCalls = [] ∧
    (run_processing
        ⟨DEFAULT_SUPPORTED_EXTENSIONS, DEFAULT_EQUALIZER_BANDS, DEFAULT_SPEECHNORM,
         DEFAULT_OUTPUT_FOLDER, DEFAULT_OUTPUT_SUFFIX⟩
        (fun _ => ("processed", "_enhanced.mkv")) (fun _ => true) (fun _ _ => false)
        (fun _ => ⟨.ok "aac\n256000", .ok ⟨[], 0⟩, false, none⟩)
        ["d/a.mkv", "d/b.mkv"]).logs = [PROCESSING_DONE_TOKEN] ∧
    JobState.pending ≠ JobState.stopped := by
  decide

/-- C7 amended: cancellation requested before any job starts makes the
orchestrator halt on its head stop check with no job processed at all —
every job (the first included) stays `Pending`, no worker or prober
call happens, no per-job event is emitted, and only the sentinel
reaches the log channel; separately, a worker invoked with the stop
flag already set returns `False` via its pre-spawn early-return
(`Stopped`) without spawning anything. -/
theorem c7_stop_before_start (cfg : Config) (live : Nat → String × String)
    (stopAt : Nat → Bool) (jobStop : Nat → Nat → Bool) (env : Nat → JobEnv)
    (files : List String) (h : stopAt 0 = true) :
    (run_processing cfg live stopAt jobStop env files).states
      = files.map (fun _ => JobState.pending) ∧
    (run_processing cfg live stopAt jobStop env files).workerCalls = [] ∧
    (run_processing cfg live stopAt jobStop env files).proberCalls = [] ∧
    (run_processing cfg live stopAt jobStop env files).logs = [PROCESSING_DONE_TOKEN] ∧
    (run_processing cfg live stopAt jobStop env files).progress = [] ∧
    (∀ (stop' : Nat → Bool) (probe : ProbeResult) (spawn : Except String ProcBehavior)
        (inp out : String), stop' 0 = true →
      (process_video cfg stop' probe spawn inp out).result = false ∧
      (process_video cfg stop' probe spawn inp out).outcome = WOutcome.earlyStop ∧
      (process_video cfg stop' probe spawn inp out).spawned = false) := by
  have hw : ∀ (stop' : Nat → Bool) (probe : ProbeResult)
      (spawn : Except String ProcBehavior) (inp out : String), stop' 0 = true →
      (process_video cfg stop' probe spawn inp out).result = false ∧
      (process_video cfg stop' probe spawn inp out).outcome = WOutcome.earlyStop ∧
      (process_video cfg stop' probe spawn inp out).spawned = false := by
    intro stop' probe spawn inp out h0
    simp [process_video, h0]
  cases files with
  | nil => exact ⟨rfl, rfl, rfl, rfl, rfl, hw⟩
  | cons f fs =>
    refine ⟨?_, ?_, ?_, ?_, ?_, hw⟩ <;> simp [run_processing, runLoop, h]

/-- C7 witness: the amended statement at a concrete one-job batch with
the flag set from the start. -/
theorem c7_stop_before_start_witness :
    (run_processing
        ⟨DEFAULT_SUPPORTED_EXTENSIONS, DEFAULT_EQUALIZER_BANDS, DEFAULT_SPEECHNORM,
         DEFAULT_OUTPUT_FOLDER, DEFAULT_OUTPUT_SUFFIX⟩
        (fun _ => ("processed", "_enhanced.mkv")) (fun _ => true) (fun _ _ => true)
        (fun _ => ⟨.ok "aac\n256000", .ok ⟨[], 0⟩, false, none⟩)
        ["d/a.mkv"]).states = [JobState.pending] ∧
    (run_processing
        ⟨DEFAULT_SUPPORTED_EXTENSIONS, DEFAULT_EQUALIZER_BANDS, DEFAULT_SPEECHNORM,
         DEFAULT_OUTPUT_FOLDER, DEFAULT_OUTPUT_SUFFIX⟩
        (fun _ => ("processed", "_enhanced.mkv")) (fun _ => true) (fun _ _ => true)
        (fun _ => ⟨.ok "aac\n256000", .ok ⟨[], 0⟩, false, none⟩)
        ["d/a.mkv"]).logs = [PROCESSING_DONE_TOKEN] ∧
    (process_video
        ⟨DEFAULT_SUPPORTED_EXTENSIONS, DEFAULT_EQUALIZER_BANDS, DEFAULT_SPEECHNORM,
         DEFAULT_OUTPUT_FOLDER, DEFAULT_OUTPUT_SUFFIX⟩
        (fun _ => true) (.ok "aac\n256000") (.ok ⟨[], 0⟩)
        "d/a.mkv" "d/processed/a_enhanced.mkv").result = false ∧
    (process_video
        ⟨DEFAULT_SUPPORTED_EXTENSIONS, DEFAULT_EQUALIZER_BANDS, DEFAULT_SPEECHNORM,
         DEFAULT_OUTPUT_FOLDER, DEFAULT_OUTPUT_SUFFIX⟩
        (fun _ => true) (.ok "aac\n256000") (.ok ⟨[], 0⟩)
        "d/a.mkv" "d/processed/a_enhanced.mkv").spawned = false := by
  have h := c7_stop_before_start
    ⟨DEFAULT_SUPPORTED_EXTENSIONS, DEFAULT_EQUALIZER_BANDS, DEFAULT_SPEECHNORM,
     DEFAULT_OUTPUT_FOLDER, DEFAULT_OUTPUT_SUFFIX⟩
    (fun _ => ("processed", "_enhanced.mkv")) (fun _ => true) (fun _ _ => true)
    (fun _ => ⟨.ok "aac\n256000", .ok ⟨[], 0⟩, false, none⟩)
    ["d/a.mkv"] rfl
  have hw := h.2.2.2.2.2 (fun _ => true) (.ok "aac\n256000") (.ok ⟨[], 0⟩)
    "d/a.mkv" "d/processed/a_enhanced.mkv" rfl
  exact ⟨h.1, h.2.2.2.1, hw.1, hw.2.2⟩

/-- C8 counterexample: a directory-creation failure at job 1 of a
two-job batch does not leave that job `Failed` with the batch
continuing — the exception reaches the batch-level handler, the batch
aborts (both jobs end untouched, the worker is never invoked), and only
the critical-error event plus the sentinel follow the start log. -/
theorem c8_counterexample :
    (run_processing
        ⟨DEFAULT_SUPPORTED_EXTENSIONS, DEFAULT_EQUALIZER_BANDS, DEFAULT_SPEECHNORM,
         DEFAULT_OUTPUT_FOLDER, DEFAULT_OUTPUT_SUFFIX⟩
        (fun _ => ("processed", "_enhanced.mkv")) (fun _ => false) (fun _ _ => false)
        (fun i => if i = 0 then
            ⟨.ok "aac\n256000", .ok ⟨[], 0⟩, false, some "Permission denied"⟩
          else ⟨.ok "aac\n256000", .ok ⟨[], 0⟩, false, none⟩)
        ["d/a.mkv", "d/b.mkv"]).states = [JobState.pending, JobState.pending] ∧
    (run_processing
        ⟨DEFAULT_SUPPORTED_EXTENSIONS, DEFAULT_EQUALIZER_BANDS, DEFAULT_SPEECHNORM,
         DEFAULT_OUTPUT_FOLDER, DEFAULT_OUTPUT_SUFFIX⟩
        (fun _ => ("processed", "_enhanced.mkv")) (fun _ => false) (fun _ _ => false)
        (fun i => if i = 0 then
            ⟨.ok "aac\n256000", .ok ⟨[], 0⟩, false, some "Permission denied"⟩
          else ⟨.ok "aac\n256000", .ok ⟨[], 0⟩, false, none⟩)
        ["d/a.mkv", "d/b.mkv"]).workerCalls = [] ∧
    (run_processing
        ⟨DEFAULT_SUPPORTED_EXTENSIONS, DEFAULT_EQUALIZER_BANDS, DEFAULT_SPEECHNORM,
         DEFAULT_OUTPUT_FOLDER, DEFAULT_OUTPUT_SUFFIX⟩
        (fun _ => ("processed", "_enhanced.mkv")) (fun _ => false) (fun _ _ => false)
        (fun i => if i = 0 then
            ⟨.ok "aac\n256000", .ok ⟨[], 0⟩, false, some "Permission denied"⟩
          else ⟨.ok "aac\n256000", .ok ⟨[], 0⟩, false, none⟩)
        ["d/a.mkv", "d/b.mkv"]).logs
      = ["Starting file 1 of 2: a.mkv",
         "\n[CRITICAL THREAD ERROR] Permission denied", PROCESSING_DONE_TOKEN] ∧
    JobState.pending ≠ JobState.failed := by
  decide

theorem runLoop_skip_step (cfg : Config) (live : Nat → String × String)
    (stopAt : Nat → Bool) (jobStop : Nat → Nat → Bool) (env : Nat → JobEnv)
    (total i : Nat) (f : String) (fs : List String)
    (hstop : stopAt i = false) (hmk : (env i).mkdirFail = none)
    (hex : (env i).outputExists = true) :
    runLoop cfg live stopAt jobStop env total i (f :: fs)
      = ⟨("Starting file " ++ toString (i + 1) ++ " of " ++ toString total
            ++ ": " ++ basename f)
          :: ("[SKIP] Exists: " ++ (stemOf f ++ (live i).2))
          :: (runLoop cfg live stopAt jobStop env total (i + 1) fs).logs,
         (runLoop cfg live stopAt jobStop env total (i + 1) fs).debugs,
         (PKind.file, 0) :: (PKind.overall, i + 1)
           :: (runLoop cfg live stopAt jobStop env total (i + 1) fs).progress,
         JobState.skipped :: (runLoop cfg live stopAt jobStop env total (i + 1) fs).states,
         (runLoop cfg live stopAt jobStop env total (i + 1) fs).workerCalls,
         (runLoop cfg live stopAt jobStop env total (i + 1) fs).proberCalls,
         ((parentOf f ++ "/" ++ (live i).1) ++ "/" ++ (stemOf f ++ (live i).2))
           :: (runLoop cfg live stopAt jobStop env total (i + 1) fs).outputs,
         (runLoop cfg live stopAt jobStop env total (i + 1) fs).filters,
         (runLoop cfg live stopAt jobStop env total (i + 1) fs).exc⟩ := by
  simp [runLoop, hstop, hmk, hex]

theorem runLoop_worker_step (cfg : Config) (live : Nat → String × String)
    (stopAt : Nat → Bool) (jobStop : Nat → Nat → Bool) (env : Nat → JobEnv)
    (total i : Nat) (f : String) (fs : List String)
    (hstop : stopAt i = false) (hmk : (env i).mkdirFail = none)
    (hex : (env i).outputExists = false) :
    runLoop cfg live stopAt jobStop env total i (f :: fs)
      = ⟨("Starting file " ++ toString (i + 1) ++ " of " ++ toString total
            ++ ": " ++ basename f)
          :: ((process_video cfg (jobStop i) (env i).probe (env i).spawn f
                ((parentOf f ++ "/" ++ (live i).1) ++ "/" ++ (stemOf f ++ (live i).2))).logs
              ++ (runLoop cfg live stopAt jobStop env total (i + 1) fs).logs),
         (process_video cfg (jobStop i) (env i).probe (env i).spawn f
            ((parentOf f ++ "/" ++ (live i).1) ++ "/" ++ (stemOf f ++ (live i).2))).debugs
           ++ (runLoop cfg live stopAt jobStop env total (i + 1) fs).debugs,
         (PKind.file, 0)
           :: ((process_video cfg (jobStop i) (env i).probe (env i).spawn f
                ((parentOf f ++ "/" ++ (live i).1) ++ "/" ++ (stemOf f ++ (live i).2))).progress
              ++ (PKind.overall, i + 1)
                :: (runLoop cfg live stopAt jobStop env total (i + 1) fs).progress),
         classifyWorker (process_video cfg (jobStop i) (env i).probe (env i).spawn f
            ((parentOf f ++ "/" ++ (live i).1) ++ "/" ++ (stemOf f ++ (live i).2)))
           :: (runLoop cfg live stopAt jobStop env total (i + 1) fs).states,
         i :: (runLoop cfg live stopAt jobStop env total (i + 1) fs).workerCalls,
         (if (process_video cfg (jobStop i) (env i).probe (env i).spawn f
              ((parentOf f ++ "/" ++ (live i).1) ++ "/" ++ (stemOf f ++ (live i).2))).probed
            then [i] else [])
           ++ (runLoop cfg live stopAt jobStop env total (i + 1) fs).proberCalls,
         ((parentOf f ++ "/" ++ (live i).1) ++ "/" ++ (stemOf f ++ (live i).2))
           :: (runLoop cfg live stopAt jobStop env total (i + 1) fs).outputs,
         (process_video cfg (jobStop i) (env i).probe (env i).spawn f
            ((parentOf f ++ "/" ++ (live i).1) ++ "/" ++ (stemOf f ++ (live i).2))).filter.toList
           ++ (runLoop cfg live stopAt jobStop env total (i + 1) fs).filters,
         (runLoop cfg live stopAt jobStop env total (i + 1) fs).exc⟩ := by
  simp [runLoop, hstop, hmk, hex]

theorem loop_mkdir_abort (cfg : Config) (live : Nat → String × String)
    (stopAt : Nat → Bool) (jobStop : Nat → Nat → Bool) (env : Nat → JobEnv)
    (total : Nat) (e : String) :
    ∀ (pre : List String) (i : Nat) (f : String) (rest : List String),
      (∀ j, j < pre.length → stopAt (i + j) = false ∧ (env (i + j)).mkdirFail = none) →
      stopAt (i + pre.length) = false →
      (env (i + pre.length)).mkdirFail = some e →
      (runLoop cfg live stopAt jobStop env total i (pre ++ f :: rest)).exc = some e ∧
      (runLoop cfg live stopAt jobStop env total i (pre ++ f :: rest)).states.drop pre.length
        = (f :: rest).map (fun _ => JobState.pending) ∧
      (runLoop cfg live stopAt jobStop env total i (pre ++ f :: rest)).states.length
        = pre.length + (f :: rest).length ∧
      (∀ k ∈ (runLoop cfg live stopAt jobStop env total i (pre ++ f :: rest)).workerCalls,
        k < i + pre.length) ∧
      (∀ k ∈ (runLoop cfg live stopAt jobStop env total i (pre ++ f :: rest)).proberCalls,
        k < i + pre.length) := by
  intro pre
  induction pre with
  | nil =>
    intro i f rest _ hstop hmk
    simp only [List.length_nil, Nat.add_zero] at hstop hmk
    simp [runLoop, hstop, hmk]
  | cons p pre' ih =>
    intro i f rest hpre hstop hmk
    have h0 := hpre 0 (by simp)
    rw [Nat.add_zero] at h0
    rw [show i + (p :: pre').length = (i + 1) + pre'.length from by simp; omega]
      at hstop hmk
    have hih := ih (i + 1) f rest
      (fun j hj => by
        have h := hpre (j + 1) (by simp; omega)
        rw [show i + (j + 1) = i + 1 + j from by omega] at h
        exact h)
      hstop hmk
    rw [List.cons_append]
    by_cases hex : (env i).outputExists = true
    · rw [runLoop_skip_step cfg live stopAt jobStop env total i p (pre' ++ f :: rest)
        h0.1 h0.2 hex]
      refine ⟨hih.1, ?_, ?_, ?_, ?_⟩
      · rw [List.length_cons]
        exact hih.2.1
      · have hl := hih.2.2.1
        simp only [List.length_cons] at hl ⊢
        omega
      · intro k hk
        have := hih.2.2.2.1 k hk
        simp only [List.length_cons]
        omega
      · intro k hk
        have := hih.2.2.2.2 k hk
        simp only [List.length_cons]
        omega
    · rw [Bool.not_eq_true] at hex
      rw [runLoop_worker_step cfg live stopAt jobStop env total i p (pre' ++ f :: rest)
        h0.1 h0.2 hex]
      refine ⟨hih.1, ?_, ?_, ?_, ?_⟩
      · rw [List.length_cons]
        exact hih.2.1
      · have hl := hih.2.2.1
        simp only [List.length_cons] at hl ⊢
        omega
      · intro k hk
        simp only [List.length_cons]
        rcases List.mem_cons.mp hk with rfl | hk2
        · omega
        · have := hih.2.2.2.1 k hk2
          omega
      · intro k hk
        simp only [List.length_cons]
        simp only [List.mem_append] at hk
        rcases hk with hk1 | hk2
        · split at hk1
          · simp at hk1
            omega
          · simp at hk1
        · have := hih.2.2.2.2 k hk2
          omega

/-- C8 amended: when `mkdir` fails for whichever job the loop is on —
after an arbitrary prefix of jobs that ran normally — the exception
escapes that job's iteration to the batch-level handler: the batch logs
the critical thread error and then the sentinel and terminates early.
The failing job receives no `Failed` state and the worker is never
invoked for it or for any later job; the failing job and all remaining
jobs stay `Pending` instead of the batch continuing. -/
theorem c8_mkdir_aborts_batch (cfg : Config) (live : Nat → String × String)
    (stopAt : Nat → Bool) (jobStop : Nat → Nat → Bool) (env : Nat → JobEnv)
    (pre : List String) (f : String) (rest : List String) (e : String)
    (hpre : ∀ j, j < pre.length → stopAt j = false ∧ (env j).mkdirFail = none)
    (hstop : stopAt pre.length = false)
    (hmk : (env pre.length).mkdirFail = some e) :
    (run_processing cfg live stopAt jobStop env (pre ++ f :: rest)).states.drop pre.length
      = (f :: rest).map (fun _ => JobState.pending) ∧
    (run_processing cfg live stopAt jobStop env (pre ++ f :: rest)).states.length
      = pre.length + (f :: rest).length ∧
    (∀ k ∈ (run_processing cfg live stopAt jobStop env (pre ++ f :: rest)).workerCalls,
      k < pre.length) ∧
    (∀ k ∈ (run_processing cfg live stopAt jobStop env (pre ++ f :: rest)).proberCalls,
      k < pre.length) ∧
    (run_processing cfg live stopAt jobStop env (pre ++ f :: rest)).logs
      = (runLoop cfg live stopAt jobStop env (pre ++ f :: rest).length 0
          (pre ++ f :: rest)).logs
        ++ ["\n[CRITICAL THREAD ERROR] " ++ e, PROCESSING_DONE_TOKEN] := by
  have h := loop_mkdir_abort cfg live stopAt jobStop env (pre ++ f :: rest).length e
    pre 0 f rest
    (fun j hj => by
      rw [Nat.zero_add]
      exact hpre j hj)
    (by rw [Nat.zero_add]; exact hstop)
    (by rw [Nat.zero_add]; exact hmk)
  refine ⟨h.2.1, h.2.2.1, ?_, ?_, ?_⟩
  · intro k hk
    have := h.2.2.2.1 k hk
    omega
  · intro k hk
    have := h.2.2.2.2 k hk
    omega
  · have hlogs : (run_processing cfg live stopAt jobStop env (pre ++ f :: rest)).logs =
        (match (runLoop cfg live stopAt jobStop env (pre ++ f :: rest).length 0
            (pre ++ f :: rest)).exc with
         | some e' =>
           (runLoop cfg live stopAt jobStop env (pre ++ f :: rest).length 0
             (pre ++ f :: rest)).logs ++ ["\n[CRITICAL THREAD ERROR] " ++ e']
         | none =>
           (runLoop cfg live stopAt jobStop env (pre ++ f :: rest).length 0
             (pre ++ f :: rest)).logs)
          ++ [PROCESSING_DONE_TOKEN] := rfl
    rw [hlogs, h.1]
    simp

/-- C8 witness: the amended statement exercised at a mid-batch failure:
job 1 of a two-job batch runs normally, job 2's directory creation
raises; the second job stays `Pending` and the critical error plus the
sentinel close the log. -/
theorem c8_mkdir_aborts_batch_witness :
    (run_processing
        ⟨DEFAULT_SUPPORTED_EXTENSIONS, DEFAULT_EQUALIZER_BANDS, DEFAULT_SPEECHNORM,
         DEFAULT_OUTPUT_FOLDER, DEFAULT_OUTPUT_SUFFIX⟩
        (fun _ => ("processed", "_enhanced.mkv")) (fun _ => false) (fun _ _ => false)
        (fun i => if i = 0 then ⟨.ok "aac\n256000", .ok ⟨[], 0⟩, false, none⟩
          else ⟨.ok "aac\n256000", .ok ⟨[], 0⟩, false, some "read-only filesystem"⟩)
        ["d/a.mkv", "d/b.mkv"]).states.drop 1 = [JobState.pending] ∧
    (run_processing
        ⟨DEFAULT_SUPPORTED_EXTENSIONS, DEFAULT_EQUALIZER_BANDS, DEFAULT_SPEECHNORM,
         DEFAULT_OUTPUT_FOLDER, DEFAULT_OUTPUT_SUFFIX⟩
        (fun _ => ("processed", "_enhanced.mkv")) (fun _ => false) (fun _ _ => false)
        (fun i => if i = 0 then ⟨.ok "aac\n256000", .ok ⟨[], 0⟩, false, none⟩
          else ⟨.ok "aac\n256000", .ok ⟨[], 0⟩, false, some "read-only filesystem"⟩)
        ["d/a.mkv", "d/b.mkv"]).states.length = 2 ∧
    (run_processing
        ⟨DEFAULT_SUPPORTED_EXTENSIONS, DEFAULT_EQUALIZER_BANDS, DEFAULT_SPEECHNORM,
         DEFAULT_OUTPUT_FOLDER, DEFAULT_OUTPUT_SUFFIX⟩
        (fun _ => ("processed", "_enhanced.mkv")) (fun _ => false) (fun _ _ => false)
        (fun i => if i = 0 then ⟨.ok "aac\n256000", .ok ⟨[], 0⟩, false, none⟩
          else ⟨.ok "aac\n256000", .ok ⟨[], 0⟩, false, some "read-only filesystem"⟩)
        ["d/a.mkv", "d/b.mkv"]).logs
      = (runLoop
          ⟨DEFAULT_SUPPORTED_EXTENSIONS, DEFAULT_EQUALIZER_BANDS, DEFAULT_SPEECHNORM,
           DEFAULT_OUTPUT_FOLDER, DEFAULT_OUTPUT_SUFFIX⟩
          (fun _ => ("processed", "_enhanced.mkv")) (fun _ => false) (fun _ _ => false)
          (fun i => if i = 0 then ⟨.ok "aac\n256000", .ok ⟨[], 0⟩, false, none⟩
            else ⟨.ok "aac\n256000", .ok ⟨[], 0⟩, false, some "read-only filesystem"⟩)
          2 0 ["d/a.mkv", "d/b.mkv"]).logs
        ++ ["\n[CRITICAL THREAD ERROR] " ++ "read-only filesystem",
            PROCESSING_DONE_TOKEN] := by
  have h := c8_mkdir_aborts_batch
    ⟨DEFAULT_SUPPORTED_EXTENSIONS, DEFAULT_EQUALIZER_BANDS, DEFAULT_SPEECHNORM,
     DEFAULT_OUTPUT_FOLDER, DEFAULT_OUTPUT_SUFFIX⟩
    (fun _ => ("processed", "_enhanced.mkv")) (fun _ => false) (fun _ _ => false)
    (fun i => if i = 0 then ⟨.ok "aac\n256000", .ok ⟨[], 0⟩, false, none⟩
      else ⟨.ok "aac\n256000", .ok ⟨[], 0⟩, false, some "read-only filesystem"⟩)
    ["d/a.mkv"] "d/b.mkv" [] "read-only filesystem"
    (fun j hj => by
      have hj0 : j = 0 := by
        simp at hj
        omega
      subst hj0
      exact ⟨rfl, rfl⟩)
    rfl rfl
  exact ⟨h.1, h.2.1, h.2.2.2.2⟩

theorem worker_filter_mem (cfg : Config) (stop : Nat → Bool) (probe : ProbeResult)
    (spawn : Except String ProcBehavior) (inp out : String) :
    ∀ s ∈ (process_video cfg stop probe spawn inp out).filter.toList,
      s = build_audio_filter cfg := by
  intro s h
  unfold process_video at h
  split at h
  · simp at h
  · split at h
    · simp at h
      exact h
    · split at h
      · simp at h
        exact h
      · split at h
        · simp at h
          exact h
        · simp at h
          exact h

theorem loop_filters_snapshot (cfg : Config) (live : Nat → String × String)
    (stopAt : Nat → Bool) (jobStop : Nat → Nat → Bool) (env : Nat → JobEnv) (total : Nat) :
    ∀ (files : List String) (i : Nat),
      ∀ s ∈ (runLoop cfg live stopAt jobStop env total i files).filters,
        s = build_audio_filter cfg := by
  intro files
  induction files with
  | nil =>
    intro i s hs
    simp [runLoop] at hs
  | cons f fs ih =>
    intro i s hs
    simp only [runLoop] at hs
    split at hs
    · simp at hs
    · split at hs
      · simp at hs
      · split at hs
        · exact ih (i + 1) s hs
        · simp only [List.mem_append] at hs
          rcases hs with hw | hmem
          · exact worker_filter_mem _ _ _ _ _ _ s hw
          · exact ih (i + 1) s hmem

/-- C9 counterexample: two runs from the same snapshot and file list,
one with the live `config_vars` untouched and one where
`output_folder`/`output_suffix` are mutated after the first job (the
live values agree at index 0), derive different output paths — the
orchestrator reads `config_vars` afresh at each job instead of using a
snapshot, so post-start mutation does affect the running batch. -/
theorem c9_counterexample :
    (fun (_ : Nat) => ("processed", "_enhanced.mkv")) 0
      = (fun (i : Nat) =>
          if i = 0 then ("processed", "_enhanced.mkv") else ("changed", "_x.mkv")) 0 ∧
    (run_processing
        ⟨DEFAULT_SUPPORTED_EXTENSIONS, DEFAULT_EQUALIZER_BANDS, DEFAULT_SPEECHNORM,
         DEFAULT_OUTPUT_FOLDER, DEFAULT_OUTPUT_SUFFIX⟩
        (fun _ => ("processed", "_enhanced.mkv")) (fun _ => false) (fun _ _ => false)
        (fun _ => ⟨.ok "aac\n256000", .ok ⟨[], 0⟩, false, none⟩)
        ["d/a.mkv", "d/b.mkv"]).outputs
      ≠ (run_processing
        ⟨DEFAULT_SUPPORTED_EXTENSIONS, DEFAULT_EQUALIZER_BANDS, DEFAULT_SPEECHNORM,
         DEFAULT_OUTPUT_FOLDER, DEFAULT_OUTPUT_SUFFIX⟩
        (fun i => if i = 0 then ("processed", "_enhanced.mkv") else ("changed", "_x.mkv"))
        (fun _ => false) (fun _ _ => false)
        (fun _ => ⟨.ok "aac\n256000", .ok ⟨[], 0⟩, false, none⟩)
        ["d/a.mkv", "d/b.mkv"]).outputs := by
  decide

/-- C9 amended: only the band and speechnorm parameters are snapshotted
into the `VideoProcessor` at batch start: every filter chain any job of
the run hands to the external process equals the one computed from the
start-time snapshot, whatever the live configuration does.  Everything
derived from the output folder name and output suffix is instead read
live from `config_vars` at each job, so post-start mutation changes the
output paths and commands of jobs not yet started — and since the
skip-if-exists test and the directory creation also consult the
live-derived path, such mutation can even change which jobs are
skipped, processed, or abort the batch. -/
theorem c9_snapshot_scope (cfg : Config) (live : Nat → String × String)
    (stopAt : Nat → Bool) (jobStop : Nat → Nat → Bool) (env : Nat → JobEnv)
    (files : List String) :
    (run_processing cfg live stopAt jobStop env files).filters.all
      (fun s => s == build_audio_filter cfg) = true := by
  rw [List.all_eq_true]
  intro s hs
  exact beq_iff_eq.mpr
    (loop_filters_snapshot cfg live stopAt jobStop env files.length files 0 s hs)

end SageDialog
